import Mathlib

/-!
Shallow embedding of the Connection & Security Audit Engine of the
mantra-recitation-api repository: the bucket-privacy classifier and bucket
validation of `app/core/database.py`, and the five-check security auditor and
report renderer of `app/services/security_validator.py`.

Python strings are modelled as Lean `String`; Python character-level operations
(`in`, `.lower()`, `.upper()`, `.startswith`, `.split(':')`) are modelled on the
underlying character lists.  A Python function that can raise is modelled as a
function into `Except`.
-/

namespace MantraAudit

/-- Python `needle in hay` membership test (substring occurrence) on character
lists: true when `needle` occurs contiguously inside `hay`. -/
def infixOfB (needle : List Char) : List Char → Bool
  | [] => needle.isEmpty
  | c :: rest => needle.isPrefixOf (c :: rest) || infixOfB needle rest

/-- Python `needle in hay` for strings. -/
def pyInStr (needle hay : String) : Bool :=
  infixOfB needle.data hay.data

/-- Python `s.lower()` (ASCII case folding, which covers every string the
program compares). -/
def pyLower (s : String) : String :=
  ⟨s.data.map Char.toLower⟩

/-- Python `s.upper()` (ASCII case folding). -/
def pyUpper (s : String) : String :=
  ⟨s.data.map Char.toUpper⟩

/-- Python `s.startswith(pre)`. -/
def pyStartsWith (s pre : String) : Bool :=
  pre.data.isPrefixOf s.data

/-- Python `s.split(':')` on character lists: splits at every colon, keeping
empty segments, so the number of segments is one more than the number of
colons. -/
def splitOnColon : List Char → List (List Char)
  | [] => [[]]
  | c :: rest =>
    let r := splitOnColon rest
    if c = ':' then [] :: r
    else
      match r with
      | [] => [[c]]
      | h :: t => (c :: h) :: t

/-!
`SnowflakeConnection._is_bucket_private` (app/core/database.py lines 156-180).

The Python source builds the list `private_indicators` from four expressions:
the first two are string literals, but the last two are *already evaluated*
boolean expressions (`'aws-region' in storage_url`, and
`'amazonaws.com' in storage_url and 's3://' in storage_url`).  The subsequent
`any(indicator in storage_url.lower() for indicator in private_indicators)`
therefore evaluates `bool in str` whenever neither string literal matched
first, which raises `TypeError` in Python.  The heterogeneous list is modelled
by `PyListElem`, and the element-wise `in` test by `pyInElem`, which errs on a
boolean element exactly as Python does.
-/

/-- An element of the Python `private_indicators` list: either a string literal
or an already-evaluated boolean expression. -/
inductive PyListElem where
  | pstr (s : String)
  | pbool (b : Bool)
deriving DecidableEq

/-- The `private_indicators` list of `_is_bucket_private`, built for a given
`storage_url` (the two boolean entries are evaluated against the un-lowered
URL at list-construction time, exactly as in the source). -/
def private_indicators (storage_url : String) : List PyListElem :=
  [PyListElem.pstr "s3://private-",
   PyListElem.pstr "s3://secure-",
   PyListElem.pbool (pyInStr "aws-region" storage_url),
   PyListElem.pbool (pyInStr "amazonaws.com" storage_url && pyInStr "s3://" storage_url)]

/-- The `public_indicators` list of `_is_bucket_private` (all strings). -/
def public_indicators : List String :=
  ["s3://public-", "public-read", "public-read-write"]

/-- Python `indicator in s` for one element of the heterogeneous indicator
list: a string element is a substring test, a boolean element raises
`TypeError` (Python: `'in <string>' requires string as left operand, not bool`). -/
def pyInElem : PyListElem → String → Except String Bool
  | PyListElem.pstr t, s => Except.ok (pyInStr t s)
  | PyListElem.pbool _, _ => Except.error "TypeError: in string requires string as left operand, not bool"

/-- Python `any(indicator in s for indicator in elems)`: short-circuits at the
first true test, and propagates the `TypeError` of a boolean element that is
reached. -/
def pyAnyIn (elems : List PyListElem) (s : String) : Except String Bool :=
  match elems with
  | [] => Except.ok false
  | e :: rest => do
    let b ← pyInElem e s
    if b then pure true else pyAnyIn rest s

/-- `SnowflakeConnection._is_bucket_private(storage_url)`: computes
`has_private_indicators` (which can raise), then `has_public_indicators`, and
returns their fail-closed conjunction. -/
def is_bucket_private (storage_url : String) : Except String Bool := do
  let hasPriv ← pyAnyIn (private_indicators storage_url) (pyLower storage_url)
  let hasPub := public_indicators.any (fun t => pyInStr t (pyLower storage_url))
  pure (hasPriv && !hasPub)

/-!
`SecurityValidator` (app/services/security_validator.py).

Each check's interaction with the warehouse is one metadata query whose
outcome is modelled as an `Except String` value inside `DBEnv`: an `error`
models the query (or any step of the surrounding `try` block) raising an
exception with that message, an `ok` models its fetched result.
-/

/-- A row of `information_schema.external_volumes` as read by the storage
check: `volume[0]`, `volume[1] or ""`, `volume[2] or ""`. -/
structure Volume where
  volume_name : String
  storage_base_url : String
  role_arn : String
deriving DecidableEq

/-- A value stored in a check result's `details` mapping. -/
inductive Detail where
  | str (s : String)
  | nat (n : Nat)
  | volume (is_secure : Bool) (issues recommendations : List String)
deriving DecidableEq

/-- A per-check result dict: `status`, `details`, `issues` (insertion-ordered
mappings are modelled as association lists). -/
structure CheckResult where
  status : String
  details : List (String × Detail)
  issues : List String
deriving DecidableEq

/-- Outcomes of the four warehouse metadata queries the five checks perform. -/
structure DBEnv where
  volumesQ : Except String (List Volume)
  policiesQ : Except String Nat
  roleUserQ : Except String (String × String)
  queriesQ : Except String Nat

/-- `SecurityValidator._has_public_access_indicators(storage_url)`. -/
def has_public_access_indicators (storage_url : String) : Bool :=
  ["public-read", "public-read-write", "public-bucket", "open-access"].any
    (fun t => pyInStr t (pyLower storage_url))

/-- `SecurityValidator._is_valid_role_arn(role_arn)`: starts with
`arn:aws:iam::`, contains `:role/`, and splits on colons into exactly six
segments. -/
def is_valid_role_arn (role_arn : String) : Bool :=
  pyStartsWith role_arn "arn:aws:iam::" &&
  pyInStr ":role/" role_arn &&
  (splitOnColon role_arn.data).length == 6

/-- The long S3 hardening recommendation string appended by
`_analyze_volume_security` (Python adjacent string literals concatenate). -/
def s3Recommendation (volume_name : String) : String :=
  "Ensure S3 bucket for " ++ volume_name ++ " has:" ++
  " - Block Public Access enabled" ++
  " - Bucket policy restricting access to Snowflake role only" ++
  " - Server-side encryption enabled" ++
  " - Versioning enabled for data protection"

/-- `SecurityValidator._analyze_volume_security(volume_name, storage_url,
role_arn)`, mirroring the source's sequential mutation of the `analysis`
dict. -/
def analyze_volume_security (volume_name storage_url role_arn : String) : Detail :=
  let urlIssues : List String :=
    if storage_url = "" then
      ["Volume " ++ volume_name ++ " has no storage URL"]
    else if has_public_access_indicators storage_url then
      ["Volume " ++ volume_name ++ " may have public access"]
    else []
  let arnIssues : List String :=
    if role_arn = "" then
      ["Volume " ++ volume_name ++ " has no IAM role ARN"]
    else if is_valid_role_arn role_arn = false then
      ["Volume " ++ volume_name ++ " has invalid IAM role ARN"]
    else []
  let recs : List String :=
    if pyInStr "s3://" (pyLower storage_url) then [s3Recommendation volume_name] else []
  Detail.volume (urlIssues.isEmpty && arnIssues.isEmpty) (urlIssues ++ arnIssues) recs

/-- Whether a volume analysis reports the volume as secure. -/
def detailIsSecure : Detail → Bool
  | Detail.volume b _ _ => b
  | _ => false

/-- Issues list of a volume analysis. -/
def detailIssues : Detail → List String
  | Detail.volume _ is _ => is
  | _ => []

/-- `SecurityValidator._validate_storage_security`, as a function of the
external-volumes query outcome. -/
def validate_storage_security (volumesQ : Except String (List Volume)) : CheckResult :=
  match volumesQ with
  | Except.error e =>
    { status := "ERROR", details := [],
      issues := ["Failed to validate storage: " ++ e] }
  | Except.ok volumes =>
    if volumes.isEmpty then
      { status := "WARNING", details := [],
        issues := ["No external volumes found - data may not be properly secured"] }
    else
      let analyses := volumes.map (fun v =>
        (v.volume_name, analyze_volume_security v.volume_name v.storage_base_url v.role_arn))
      let secure_volumes := analyses.countP (fun p => detailIsSecure p.2)
      let issues := (analyses.filter (fun p => detailIsSecure p.2 = false)).flatMap
        (fun p => detailIssues p.2)
      let status :=
        if secure_volumes = volumes.length then "PASS"
        else if secure_volumes > 0 then "WARNING"
        else "FAIL"
      { status := status, details := analyses, issues := issues }

/-- `SecurityValidator._validate_network_security`, as a function of the
`SHOW NETWORK POLICIES` query outcome (number of policies fetched). -/
def validate_network_security (policiesQ : Except String Nat) : CheckResult :=
  match policiesQ with
  | Except.error e =>
    { status := "ERROR", details := [],
      issues := ["Failed to validate network security: " ++ e] }
  | Except.ok n =>
    if n = 0 then
      { status := "WARNING", details := [],
        issues := ["No network policies found - consider restricting IP access"] }
    else
      { status := "PASS", details := [("network_policies_count", Detail.nat n)], issues := [] }

/-- `SecurityValidator._validate_access_controls`, as a function of the
`SELECT CURRENT_ROLE(), CURRENT_USER()` query outcome. -/
def validate_access_controls (roleUserQ : Except String (String × String)) : CheckResult :=
  match roleUserQ with
  | Except.error e =>
    { status := "ERROR", details := [],
      issues := ["Failed to validate access controls: " ++ e] }
  | Except.ok ru =>
    let base : CheckResult :=
      { status := "PASS",
        details := [("current_role", Detail.str ru.1), ("current_user", Detail.str ru.2)],
        issues := [] }
    if ru.1 = "ACCOUNTADMIN" ∨ ru.1 = "SECURITYADMIN" then
      { base with
        status := "WARNING"
        issues := ["Using high-privilege role " ++ ru.1 ++ " - consider using least-privilege role"] }
    else base

/-- `SecurityValidator._validate_encryption`: unconditional `PASS` with no
fallible operation. -/
def validate_encryption : CheckResult :=
  { status := "PASS",
    details := [("snowflake_encryption",
      Detail.str "Snowflake provides automatic encryption at rest and in transit")],
    issues := [] }

/-- `SecurityValidator._validate_monitoring_setup`, as a function of the
query-history count query outcome; note its `except` branch sets `WARNING`
(not `ERROR`). -/
def validate_monitoring_setup (queriesQ : Except String Nat) : CheckResult :=
  match queriesQ with
  | Except.error e =>
    { status := "WARNING", details := [],
      issues := ["Could not validate monitoring: " ++ e] }
  | Except.ok n =>
    if n = 0 then
      { status := "WARNING", details := [("recent_queries", Detail.nat 0)],
        issues := ["No recent query history found - monitoring may not be active"] }
    else
      { status := "PASS", details := [("recent_queries", Detail.nat n)], issues := [] }

/-- The `audit_results` dict of `run_comprehensive_security_audit` (Python
dicts preserve insertion order, so `checks` is an ordered association list). -/
structure AuditReport where
  timestamp : String
  overall_status : String
  security_score : Nat
  checks : List (String × CheckResult)
  recommendations : List String
  critical_issues : List String
deriving DecidableEq

/-- The five check entries built by `run_comprehensive_security_audit`, in the
source's fixed construction order. -/
def audit_checks (env : DBEnv) : List (String × CheckResult) :=
  [("storage_security", validate_storage_security env.volumesQ),
   ("network_security", validate_network_security env.policiesQ),
   ("access_controls", validate_access_controls env.roleUserQ),
   ("encryption", validate_encryption),
   ("monitoring", validate_monitoring_setup env.queriesQ)]

/-- `int((passed_checks / total_checks) * 100)`.  The source computes this in
floating point; for `total = 5` and `passed ≤ 5` the double-precision result
of `(passed / 5) * 100` is exactly the integer `20 * passed`, so exact natural
division (which agrees with truncation there) is a faithful model. -/
def security_score_of (passed total : Nat) : Nat :=
  passed * 100 / total

/-- The descending threshold ladder assigning `overall_status` from
`security_score` (lines 47-54 of security_validator.py). -/
def overall_status_of (score : Nat) : String :=
  if 90 ≤ score then "EXCELLENT"
  else if 75 ≤ score then "GOOD"
  else if 60 ≤ score then "ACCEPTABLE"
  else "CRITICAL"

/-- `SecurityValidator.run_comprehensive_security_audit`, as a function of the
audit timestamp and the four query outcomes. -/
def run_comprehensive_security_audit (timestamp : String) (env : DBEnv) : AuditReport :=
  let checks := audit_checks env
  let total_checks := checks.length
  let passed_checks := checks.countP (fun c => c.2.status == "PASS")
  let score := security_score_of passed_checks total_checks
  { timestamp := timestamp
    overall_status := overall_status_of score
    security_score := score
    checks := checks
    recommendations := []
    critical_issues := [] }

/-- Number of `PASS` checks of an audit over `env`. -/
def pass_count (env : DBEnv) : Nat :=
  (audit_checks env).countP (fun c => c.2.status == "PASS")

/-- The rendering portion of `SecurityValidator.generate_security_report`
(lines 315-344): a pure function of the audit dict, iterating `checks` in its
fixed order. -/
def render_report (audit : AuditReport) : String :=
  let header :=
    "\nSNOWFLAKE SECURITY AUDIT REPORT\n================================\nTimestamp: "
    ++ audit.timestamp ++ "\nOverall Status: " ++ audit.overall_status
    ++ "\nSecurity Score: " ++ toString audit.security_score
    ++ "/100\n\nSECURITY CHECKS:\n"
  let afterChecks := audit.checks.foldl (fun acc c =>
    let line := acc ++ "  " ++ pyUpper c.1 ++ ": " ++ c.2.status ++ "\n"
    if c.2.issues.isEmpty then line
    else c.2.issues.foldl (fun a i => a ++ "      - " ++ i ++ "\n") (line ++ "    Issues:\n"))
    header
  let afterCritical :=
    if audit.critical_issues.isEmpty then afterChecks
    else audit.critical_issues.foldl (fun a i => a ++ "  - " ++ i ++ "\n")
      (afterChecks ++ "\nCRITICAL ISSUES:\n")
  if audit.recommendations.isEmpty then afterCritical
  else audit.recommendations.foldl (fun a r => a ++ "  - " ++ r ++ "\n")
    (afterCritical ++ "\nRECOMMENDATIONS:\n")

/-- `SecurityValidator.generate_security_report`: runs a fresh audit and
renders it. -/
def generate_security_report (timestamp : String) (env : DBEnv) : String :=
  render_report (run_comprehensive_security_audit timestamp env)

/-!
`SnowflakeConnection.get_connection_params` and `SnowflakeConnection.connect`
(app/core/database.py lines 29-83).

Python truthiness of the string settings (`if settings.SNOWFLAKE_PRIVATE_KEY_PATH`,
`elif settings.SNOWFLAKE_PASSWORD`) is non-emptiness, since the settings fields
are strings defaulting to `""`.  Reading the key file and parsing the PEM are
modelled by a caller-supplied `loadKey` oracle; the network connect call is
modelled by a caller-supplied attempt-indexed `net` oracle, so that how many
attempts the code makes is observable.
-/

/-- An exception escaping the connection manager. -/
inductive PyErr where
  | valueError (msg : String)
  | keyLoadError (msg : String)
  | transientNetError (msg : String)
  | authError (msg : String)
deriving DecidableEq

/-- The settings fields read by `get_connection_params` (strings defaulting to
`""`; an empty string is Python-falsy). -/
structure ConnSettings where
  account : String
  user : String
  password : String
  database : String
  schema : String
  warehouse : String
  private_key_path : String
deriving DecidableEq

/-- The authentication entries placed into the params dict: either a loaded
private key, or a password together with `authenticator = 'snowflake'`. -/
inductive AuthParams where
  | privateKey (key : Nat)
  | password (pw : String)
deriving DecidableEq

/-- The params dict returned by `get_connection_params`. -/
structure ConnectionParams where
  account : String
  user : String
  database : String
  schema : String
  warehouse : String
  autocommit : Bool
  client_session_keep_alive : Bool
  network_timeout : Nat
  login_timeout : Nat
  auth : AuthParams
deriving DecidableEq

/-- `SnowflakeConnection.get_connection_params`, with key-file loading supplied
as an oracle (an `error` models `load_pem_private_key` raising; the raised
exception is re-raised unchanged). -/
def get_connection_params (s : ConnSettings) (loadKey : String → Except PyErr Nat) :
    Except PyErr ConnectionParams :=
  let base : AuthParams → ConnectionParams := fun a =>
    { account := s.account
      user := s.user
      database := s.database
      schema := s.schema
      warehouse := s.warehouse
      autocommit := false
      client_session_keep_alive := true
      network_timeout := 60
      login_timeout := 60
      auth := a }
  if s.private_key_path ≠ "" then
    match loadKey s.private_key_path with
    | Except.ok k => Except.ok (base (AuthParams.privateKey k))
    | Except.error e => Except.error e
  else if s.password ≠ "" then
    Except.ok (base (AuthParams.password s.password))
  else
    Except.error (PyErr.valueError
      "Must provide either SNOWFLAKE_PASSWORD or SNOWFLAKE_PRIVATE_KEY_PATH")

/-- `SnowflakeConnection.connect`: builds the params, then performs a single
`snowflake.connector.connect` call (attempt index 0); any exception is logged
and re-raised unchanged. -/
def connect (s : ConnSettings) (loadKey : String → Except PyErr Nat)
    (net : Nat → ConnectionParams → Except PyErr Nat) : Except PyErr Nat := do
  let params ← get_connection_params s loadKey
  net 0 params

/-- Modelled from the spec (no retry loop exists in the source): retry the
connection attempt on transient network failures only, with `fuel` retries
remaining after the current attempt; authentication and configuration errors
are returned immediately. -/
def retryConnect (net : Nat → ConnectionParams → Except PyErr Nat)
    (params : ConnectionParams) : Nat → Nat → Except PyErr Nat
  | 0, attempt => net attempt params
  | fuel + 1, attempt =>
    match net attempt params with
    | Except.ok c => Except.ok c
    | Except.error (PyErr.transientNetError _) =>
      retryConnect net params fuel (attempt + 1)
    | Except.error e => Except.error e

/-- Modelled from the spec: `connect` as the spec describes it, with a retry
budget of `MAX_CONNECTION_RETRIES = 3` applied to the initial connection
attempt on transient network failures only. -/
def connect_spec (s : ConnSettings) (loadKey : String → Except PyErr Nat)
    (net : Nat → ConnectionParams → Except PyErr Nat) : Except PyErr Nat := do
  let params ← get_connection_params s loadKey
  retryConnect net params 3 0

/-! Concrete fixtures used by witnesses and counterexamples. -/

/-- A volume whose analysis is secure: private-looking S3 URL, well-formed
six-segment IAM role ARN. -/
def secureVol : Volume :=
  { volume_name := "VOL1"
    storage_base_url := "s3://private-mantra-data/iceberg/"
    role_arn := "arn:aws:iam::123456789012:role/SnowflakeIcebergRole" }

/-- Query environment in which every check succeeds and passes. -/
def envAllPass : DBEnv :=
  { volumesQ := Except.ok [secureVol]
    policiesQ := Except.ok 2
    roleUserQ := Except.ok ("ANALYST_ROLE", "APP_USER")
    queriesQ := Except.ok 12 }

/-- Query environment in which only the monitoring query raises. -/
def envMonErr : DBEnv :=
  { volumesQ := Except.ok [secureVol]
    policiesQ := Except.ok 2
    roleUserQ := Except.ok ("ANALYST_ROLE", "APP_USER")
    queriesQ := Except.error "boom" }

/-- Query environment in which all four queries raise. -/
def envAllErr : DBEnv :=
  { volumesQ := Except.error "q1"
    policiesQ := Except.error "q2"
    roleUserQ := Except.error "q3"
    queriesQ := Except.error "q4" }

/-- Settings carrying both a password and a private-key path. -/
def bothCredsSettings : ConnSettings :=
  { account := "acct"
    user := "u"
    password := "pw"
    database := "MANTRA_TRACKER"
    schema := "ICEBERG_TABLES"
    warehouse := "COMPUTE_WH"
    private_key_path := "/keys/rsa_key.p8" }

/-- Settings carrying neither credential. -/
def noCredsSettings : ConnSettings :=
  { bothCredsSettings with
    password := ""
    private_key_path := "" }

/-- Settings carrying only a password. -/
def pwOnlySettings : ConnSettings :=
  { bothCredsSettings with private_key_path := "" }

/-- Key-loading oracle that always succeeds. -/
def loadKeyOk : String → Except PyErr Nat := fun _ => Except.ok 7

/-- Network oracle failing transiently on the first attempt and succeeding on
every later one. -/
def flakyNet : Nat → ConnectionParams → Except PyErr Nat := fun attempt _ =>
  if attempt = 0 then Except.error (PyErr.transientNetError "connection reset")
  else Except.ok 42

/-- Number of volumes in a list whose analysis reports them secure. -/
def volumeSecureCount (volumes : List Volume) : Nat :=
  volumes.countP (fun v =>
    detailIsSecure (analyze_volume_security v.volume_name v.storage_base_url v.role_arn))

/-! Theorems settling the claims. -/

/-- C1: the claim states that `_is_bucket_private` returns `false` on empty or
indicator-free URLs and never raises; on the code, any URL in which neither
`s3://private-` nor `s3://secure-` occurs reaches a pre-evaluated boolean
element of the indicator list and raises `TypeError`, so the empty string and
`s3://public-data/x` raise instead of returning `false`, while the private
example does return `true` as specified. -/
theorem c1_is_bucket_private_raises :
    is_bucket_private "" =
      Except.error "TypeError: in string requires string as left operand, not bool" ∧
    is_bucket_private "s3://public-data/x" =
      Except.error "TypeError: in string requires string as left operand, not bool" ∧
    is_bucket_private "s3://private-mantra-bucket/x" = Except.ok true :=
  ⟨rfl, rfl, rfl⟩

/-- C4: the claim states that any URL containing a public indicator classifies
as not-private; on the code this holds only when a private string indicator is
also present to short-circuit past the boolean list elements
(`s3://private-public-read-bucket` does return `false`), but a URL such as
`public-read-write` that carries a public indicator with no private prefix
raises `TypeError` instead of returning `false`. -/
theorem c4_public_override_partial :
    is_bucket_private "s3://private-public-read-bucket" = Except.ok false ∧
    is_bucket_private "s3://secure-data-public-read/x" = Except.ok false ∧
    is_bucket_private "public-read-write" =
      Except.error "TypeError: in string requires string as left operand, not bool" :=
  ⟨rfl, rfl, rfl⟩

/-- C2 counterexample: in a run where exactly the monitoring query raises, the
monitoring entry of the report has status `WARNING`, not `ERROR` as the claim
states. -/
theorem c2_counterexample :
    ((run_comprehensive_security_audit "2026-01-01T00:00:00" envMonErr).checks.map
      (fun c => (c.1, c.2.status))) =
      [("storage_security", "PASS"), ("network_security", "PASS"),
       ("access_controls", "PASS"), ("encryption", "PASS"),
       ("monitoring", "WARNING")] ∧
    ("WARNING" : String) ≠ "ERROR" :=
  ⟨rfl, by decide⟩

/-- C2 amended: every audit report has exactly the five fixed check entries,
each computed only from its own query outcome; a raised exception yields
status `ERROR` for the storage, network and access-control checks, the
encryption check cannot raise and is always `PASS`, and a raised exception in
the monitoring check yields status `WARNING` (not `ERROR`); in every case the
other checks still complete and appear. -/
theorem c2_check_isolation (timestamp : String) (env : DBEnv) :
    (run_comprehensive_security_audit timestamp env).checks.length = 5 ∧
    (run_comprehensive_security_audit timestamp env).checks =
      [("storage_security", validate_storage_security env.volumesQ),
       ("network_security", validate_network_security env.policiesQ),
       ("access_controls", validate_access_controls env.roleUserQ),
       ("encryption", validate_encryption),
       ("monitoring", validate_monitoring_setup env.queriesQ)] ∧
    (∀ e, env.volumesQ = Except.error e →
      (validate_storage_security env.volumesQ).status = "ERROR") ∧
    (∀ e, env.policiesQ = Except.error e →
      (validate_network_security env.policiesQ).status = "ERROR") ∧
    (∀ e, env.roleUserQ = Except.error e →
      (validate_access_controls env.roleUserQ).status = "ERROR") ∧
    validate_encryption.status = "PASS" ∧
    (∀ e, env.queriesQ = Except.error e →
      (validate_monitoring_setup env.queriesQ).status = "WARNING") := by
  refine ⟨rfl, rfl, ?_, ?_, ?_, rfl, ?_⟩ <;>
    intro e h <;> simp [validate_storage_security, validate_network_security,
      validate_access_controls, validate_monitoring_setup, h]

/-- C2 witness: with all four queries raising, the report still has five
entries, the first three checks report `ERROR`, and monitoring reports
`WARNING`. -/
theorem c2_check_isolation_witness :
    (run_comprehensive_security_audit "t" envAllErr).checks.length = 5 ∧
    (validate_storage_security envAllErr.volumesQ).status = "ERROR" ∧
    (validate_network_security envAllErr.policiesQ).status = "ERROR" ∧
    (validate_access_controls envAllErr.roleUserQ).status = "ERROR" ∧
    (validate_monitoring_setup envAllErr.queriesQ).status = "WARNING" := by
  have h := c2_check_isolation "t" envAllErr
  exact ⟨h.1, h.2.2.1 "q1" rfl, h.2.2.2.1 "q2" rfl, h.2.2.2.2.1 "q3" rfl,
    h.2.2.2.2.2.2 "q4" rfl⟩

/-- C3 counterexample: a configuration carrying both a password and a
private-key path (with loadable key material) is accepted with private-key
authentication, not rejected as the claim states. -/
theorem c3_counterexample :
    bothCredsSettings.password ≠ "" ∧
    bothCredsSettings.private_key_path ≠ "" ∧
    get_connection_params bothCredsSettings loadKeyOk =
      Except.ok
        { account := "acct", user := "u", database := "MANTRA_TRACKER",
          schema := "ICEBERG_TABLES", warehouse := "COMPUTE_WH",
          autocommit := false, client_session_keep_alive := true,
          network_timeout := 60, login_timeout := 60,
          auth := AuthParams.privateKey 7 } :=
  ⟨by decide, by decide, rfl⟩

/-- C3 amended: `get_connection_params` rejects configurations with zero
credentials (raising the `ValueError` of line 68); when a private-key path is
present it is used regardless of whether a password is also present — the
result is private-key authentication when the key loads and the key-load
exception otherwise; a password-only configuration is accepted with password
authentication. -/
theorem c3_credential_selection (s : ConnSettings) (loadKey : String → Except PyErr Nat) :
    (s.private_key_path = "" → s.password = "" →
      get_connection_params s loadKey =
        Except.error (PyErr.valueError
          "Must provide either SNOWFLAKE_PASSWORD or SNOWFLAKE_PRIVATE_KEY_PATH")) ∧
    (s.private_key_path ≠ "" → ∀ k, loadKey s.private_key_path = Except.ok k →
      ∃ p, get_connection_params s loadKey = Except.ok p ∧
        p.auth = AuthParams.privateKey k) ∧
    (s.private_key_path ≠ "" → ∀ e, loadKey s.private_key_path = Except.error e →
      get_connection_params s loadKey = Except.error e) ∧
    (s.private_key_path = "" → s.password ≠ "" →
      ∃ p, get_connection_params s loadKey = Except.ok p ∧
        p.auth = AuthParams.password s.password) := by
  refine ⟨?_, ?_, ?_, ?_⟩
  · intro h1 h2
    simp [get_connection_params, h1, h2]
  · intro h1 k hk
    refine ⟨{ account := s.account, user := s.user, database := s.database,
              schema := s.schema, warehouse := s.warehouse, autocommit := false,
              client_session_keep_alive := true, network_timeout := 60,
              login_timeout := 60, auth := AuthParams.privateKey k }, ?_, rfl⟩
    simp [get_connection_params, h1, hk]
  · intro h1 e he
    simp [get_connection_params, h1, he]
  · intro h1 h2
    refine ⟨{ account := s.account, user := s.user, database := s.database,
              schema := s.schema, warehouse := s.warehouse, autocommit := false,
              client_session_keep_alive := true, network_timeout := 60,
              login_timeout := 60, auth := AuthParams.password s.password }, ?_, rfl⟩
    simp [get_connection_params, h1, h2]

/-- C3 witness: the zero-credential configuration is rejected with the
source's `ValueError` message. -/
theorem c3_credential_selection_witness :
    get_connection_params noCredsSettings loadKeyOk =
      Except.error (PyErr.valueError
        "Must provide either SNOWFLAKE_PASSWORD or SNOWFLAKE_PRIVATE_KEY_PATH") :=
  (c3_credential_selection noCredsSettings loadKeyOk).1 rfl rfl

/-- The audit's security score is twenty times its number of `PASS` checks
(`int((passed / 5) * 100)` is exactly `20 * passed`). -/
theorem audit_score_eq (timestamp : String) (env : DBEnv) :
    (run_comprehensive_security_audit timestamp env).security_score = 20 * pass_count env := by
  show security_score_of (pass_count env) 5 = 20 * pass_count env
  unfold security_score_of
  omega

/-- The audit's overall status is the threshold ladder applied to its score. -/
theorem audit_overall_eq (timestamp : String) (env : DBEnv) :
    (run_comprehensive_security_audit timestamp env).overall_status =
      overall_status_of (20 * pass_count env) := by
  show overall_status_of (security_score_of (pass_count env) 5) = _
  have h : security_score_of (pass_count env) 5 = 20 * pass_count env := by
    unfold security_score_of; omega
  rw [h]

/-- Every audit has between one and five passing checks: encryption always
passes, and there are only five checks. -/
theorem pass_count_bounds (env : DBEnv) : 1 ≤ pass_count env ∧ pass_count env ≤ 5 := by
  unfold pass_count audit_checks
  simp only [List.countP_cons, List.countP_nil]
  have henc : (validate_encryption.status == "PASS") = true := rfl
  rw [henc]
  split_ifs <;> first | omega | simp_all

/-- The threshold ladder answers `CRITICAL` exactly on scores below 60. -/
theorem overall_status_critical_iff (s : Nat) :
    overall_status_of s = "CRITICAL" ↔ s < 60 := by
  unfold overall_status_of
  split_ifs with h1 h2 h3
  · exact ⟨fun h => absurd h (by decide), fun h => absurd h1 (by omega)⟩
  · exact ⟨fun h => absurd h (by decide), fun h => absurd h2 (by omega)⟩
  · exact ⟨fun h => absurd h (by decide), fun h => absurd h3 (by omega)⟩
  · exact ⟨fun _ => by omega, fun _ => rfl⟩

/-- The nonempty-volumes branch of the storage check reduces to the
three-way aggregate over the secure-volume count. -/
theorem storage_status_eq (volumes : List Volume) (h : volumes.isEmpty = false) :
    (validate_storage_security (Except.ok volumes)).status =
      (if volumeSecureCount volumes = volumes.length then "PASS"
       else if 0 < volumeSecureCount volumes then "WARNING" else "FAIL") := by
  unfold validate_storage_security
  simp only [h, Bool.false_eq_true, if_false]
  show (if (volumes.map (fun v => (v.volume_name,
      analyze_volume_security v.volume_name v.storage_base_url v.role_arn))).countP
      (fun p => detailIsSecure p.2) = volumes.length then "PASS"
    else if 0 < (volumes.map (fun v => (v.volume_name,
      analyze_volume_security v.volume_name v.storage_base_url v.role_arn))).countP
      (fun p => detailIsSecure p.2) then "WARNING" else "FAIL") = _
  simp only [List.countP_map]
  rfl

/-- C5: for every environment the audit's security score equals
`round(100 * passCount / 5)` — the product `100 * passCount` is divisible by
5, so truncating division (the source's `int(...)`) coincides with rounding —
and the score is monotonic in the number of passing checks. -/
theorem c5_score_formula (timestamp : String) (env envB : DBEnv) :
    (run_comprehensive_security_audit timestamp env).security_score =
      100 * pass_count env / 5 ∧
    100 * pass_count env % 5 = 0 ∧
    (pass_count env ≤ pass_count envB →
      (run_comprehensive_security_audit timestamp env).security_score ≤
        (run_comprehensive_security_audit timestamp envB).security_score) := by
  refine ⟨?_, ?_, ?_⟩
  · rw [audit_score_eq]; omega
  · omega
  · intro hle
    rw [audit_score_eq, audit_score_eq]
    omega

/-- C5 witness: in the all-errors environment the score is `100 * 1 / 5 = 20`,
and it never exceeds the all-pass environment's score. -/
theorem c5_score_formula_witness :
    (run_comprehensive_security_audit "t" envAllErr).security_score =
      100 * pass_count envAllErr / 5 ∧
    (run_comprehensive_security_audit "t" envAllErr).security_score ≤
      (run_comprehensive_security_audit "t" envAllPass).security_score := by
  have h := c5_score_formula "t" envAllErr envAllPass
  exact ⟨h.1, h.2.2 (by decide)⟩

/-- C6: on scores 0-100 the threshold ladder is an exclusive partition with
inclusive lower bounds: `EXCELLENT` exactly on `[90, 100]`, `GOOD` exactly on
`[75, 90)`, `ACCEPTABLE` exactly on `[60, 75)`, `CRITICAL` exactly below 60,
and the boundary scores 90, 75, 60 map to the higher tier. -/
theorem c6_threshold_partition (score : Nat) (h : score ≤ 100) :
    (90 ≤ score ↔ overall_status_of score = "EXCELLENT") ∧
    (75 ≤ score ∧ score < 90 ↔ overall_status_of score = "GOOD") ∧
    (60 ≤ score ∧ score < 75 ↔ overall_status_of score = "ACCEPTABLE") ∧
    (score < 60 ↔ overall_status_of score = "CRITICAL") ∧
    overall_status_of 90 = "EXCELLENT" ∧
    overall_status_of 75 = "GOOD" ∧
    overall_status_of 60 = "ACCEPTABLE" := by
  refine ⟨?_, ?_, ?_, ?_, rfl, rfl, rfl⟩ <;>
  · unfold overall_status_of
    split_ifs with h1 h2 h3 <;>
      constructor <;> intro hx <;>
        first
          | rfl
          | omega
          | exact absurd hx (by decide)

/-- C6 witness: the boundary score 60 maps to the higher tier `ACCEPTABLE`. -/
theorem c6_threshold_partition_witness :
    overall_status_of 60 = "ACCEPTABLE" :=
  (c6_threshold_partition 60 (by decide)).2.2.2.2.2.2

/-- C7: the storage check's aggregate over a successfully fetched volume list
is `WARNING` on the empty list (not `FAIL`), and on a nonempty list `PASS`
when every volume is secure, `WARNING` when some but not all are, `FAIL` when
none are. -/
theorem c7_storage_aggregate (volumes : List Volume) :
    (volumes = [] → (validate_storage_security (Except.ok volumes)).status = "WARNING") ∧
    (volumes ≠ [] →
      (volumeSecureCount volumes = volumes.length →
        (validate_storage_security (Except.ok volumes)).status = "PASS") ∧
      (0 < volumeSecureCount volumes → volumeSecureCount volumes < volumes.length →
        (validate_storage_security (Except.ok volumes)).status = "WARNING") ∧
      (volumeSecureCount volumes = 0 →
        (validate_storage_security (Except.ok volumes)).status = "FAIL")) := by
  constructor
  · intro h; subst h; rfl
  · intro hne
    have hEmp : volumes.isEmpty = false := by
      cases volumes with
      | nil => exact absurd rfl hne
      | cons a l => rfl
    have hs := storage_status_eq volumes hEmp
    refine ⟨?_, ?_, ?_⟩
    · intro hc
      rw [hs, if_pos hc]
    · intro h0 hlt
      rw [hs, if_neg (by omega), if_pos h0]
    · intro h0
      have hlen : 0 < volumes.length := List.length_pos.mpr hne
      rw [hs, if_neg (by omega), if_neg (by omega)]

/-- C7 witness: zero volumes yield `WARNING`, one secure volume yields `PASS`. -/
theorem c7_storage_aggregate_witness :
    (validate_storage_security (Except.ok ([] : List Volume))).status = "WARNING" ∧
    (validate_storage_security (Except.ok [secureVol])).status = "PASS" :=
  ⟨(c7_storage_aggregate []).1 rfl,
   ((c7_storage_aggregate [secureVol]).2 (by decide)).1 (by decide)⟩

/-- C8 counterexample: with a network oracle that fails transiently on the
first attempt and would succeed on the second, the source's `connect` fails
with that transient error, while the spec-modelled retrying connect (budget 3)
succeeds — so the code does not retry transient failures as the claim states. -/
theorem c8_counterexample :
    connect pwOnlySettings loadKeyOk flakyNet =
      Except.error (PyErr.transientNetError "connection reset") ∧
    connect_spec pwOnlySettings loadKeyOk flakyNet = Except.ok 42 :=
  ⟨rfl, rfl⟩

/-- C8 amended: `connect` performs exactly one connection attempt — a
configuration error from parameter building propagates with no attempt, the
result is otherwise exactly the outcome of attempt 0 (carrying the underlying
cause on failure, transient or not), and the result never depends on any
later attempt. -/
theorem c8_single_attempt (s : ConnSettings) (loadKey : String → Except PyErr Nat)
    (net net2 : Nat → ConnectionParams → Except PyErr Nat) :
    (∀ e, get_connection_params s loadKey = Except.error e →
      connect s loadKey net = Except.error e) ∧
    (∀ p, get_connection_params s loadKey = Except.ok p →
      connect s loadKey net = net 0 p) ∧
    ((∀ p, net 0 p = net2 0 p) → connect s loadKey net = connect s loadKey net2) := by
  refine ⟨?_, ?_, ?_⟩
  · intro e h
    unfold connect
    rw [h]
    rfl
  · intro p h
    unfold connect
    rw [h]
    rfl
  · intro h
    unfold connect
    cases hg : get_connection_params s loadKey with
    | error e => rfl
    | ok p => exact h p

/-- C8 witness: with password-only settings, `connect` is exactly the outcome
of attempt 0 of the network oracle. -/
theorem c8_single_attempt_witness :
    connect pwOnlySettings loadKeyOk flakyNet = flakyNet 0
      { account := "acct", user := "u", database := "MANTRA_TRACKER",
        schema := "ICEBERG_TABLES", warehouse := "COMPUTE_WH",
        autocommit := false, client_session_keep_alive := true,
        network_timeout := 60, login_timeout := 60,
        auth := AuthParams.password "pw" } :=
  (c8_single_attempt pwOnlySettings loadKeyOk flakyNet flakyNet).2.1 _ rfl

/-- C9: the rendering stage of `generate_security_report` is a pure function
of the audit dict alone (it iterates the `checks` association list in its
fixed construction order), so rendering equal report values produces
byte-identical text. -/
theorem c9_render_deterministic (a b : AuditReport) (h : a = b) :
    render_report a = render_report b := by
  rw [h]

/-- C9 witness: rendering the all-pass audit twice yields identical text. -/
theorem c9_render_deterministic_witness :
    render_report (run_comprehensive_security_audit "t" envAllPass) =
      render_report (run_comprehensive_security_audit "t" envAllPass) :=
  c9_render_deterministic _ _ rfl

/-- C10: the encryption check is unconditionally `PASS` and cannot raise, so
every audit's score is a positive multiple of 20 — at least 20, never 0 — and
an overall status of `CRITICAL` forces a score of exactly 20 or 40. -/
theorem c10_encryption_score_floor (timestamp : String) (env : DBEnv) :
    validate_encryption.status = "PASS" ∧
    20 ∣ (run_comprehensive_security_audit timestamp env).security_score ∧
    20 ≤ (run_comprehensive_security_audit timestamp env).security_score ∧
    ((run_comprehensive_security_audit timestamp env).overall_status = "CRITICAL" →
      (run_comprehensive_security_audit timestamp env).security_score = 20 ∨
      (run_comprehensive_security_audit timestamp env).security_score = 40) := by
  have hb := pass_count_bounds env
  have hs := audit_score_eq timestamp env
  refine ⟨rfl, ?_, ?_, ?_⟩
  · rw [hs]
    exact dvd_mul_right 20 (pass_count env)
  · rw [hs]; omega
  · intro hcrit
    rw [audit_overall_eq] at hcrit
    have hlt := (overall_status_critical_iff _).1 hcrit
    rw [hs]
    omega

/-- C10 witness: in the all-errors environment the status is `CRITICAL` and
the score is 20 or 40. -/
theorem c10_encryption_score_floor_witness :
    (run_comprehensive_security_audit "t" envAllErr).security_score = 20 ∨
    (run_comprehensive_security_audit "t" envAllErr).security_score = 40 :=
  (c10_encryption_score_floor "t" envAllErr).2.2.2 rfl

end MantraAudit
